import Mathlib

/-!
# Verification of the ecsuite optimistic-update core

Shallow embedding of the optimistic-update state machine of
`src/domains/base.ts` (class `BaseDomainManager`) and its cart
instantiation `src/domains/cart.ts` (class `CartManager`).

Modelling conventions:
* `DomainStateWrapper` mirrors the snapshot type of `src/types/state.ts`.
* Every store write is observable: each primitive returns the new snapshot
  together with a list of observations `Obs`.  `Obs.snap s` means
  "`_store.update` replaced the snapshot with `s` and notified every
  subscriber with `s`"; `Obs.evt e` means "`_emit` published `e` on the
  pubsub bus".  Within one primitive the store notification precedes the
  pubsub emission, exactly as in the source (`_store.update(...)` comes
  before `this._emit(...)`).
* A thrown JavaScript value is `JsErr`: either an `Error` carrying a
  message or some non-`Error` value (`e instanceof Error` distinguishes
  the two in the source).
* `Date.now()` is modelled by an explicit `now : Nat` parameter; the
  several clock reads inside one operation are modelled by one value.
* Caller-supplied callbacks (`optimisticUpdate`, `onSuccess`, `onError`)
  are arbitrary effectful functions `Eff`: given the current snapshot they
  return the snapshot after their store writes, the observations those
  writes produced, and optionally a thrown value (JS side effects made
  before a throw persist).  `serverSync` additionally returns a result or
  a rejection.
* An `async` JS function never throws synchronously; a throw escaping the
  coordinator body surfaces as a rejection of the returned promise, which
  the model records in `RunResult.rejected`.
-/

/-- `DomainState` from `src/types/state.ts`:
`"initializing" | "ready" | "syncing" | "error"`. -/
inductive DomainState where
  | initializing
  | ready
  | syncing
  | error
deriving DecidableEq, Repr

/-- A thrown JavaScript value: an `Error` with a message, or any other value
(the source discriminates with `e instanceof Error`). -/
inductive JsErr where
  | err (message : String)
  | nonError
deriving DecidableEq, Repr

/-- `e instanceof Error ? e.message : fallback`. -/
def jsMessageOr (fallback : String) : JsErr → String
  | JsErr.err m => m
  | JsErr.nonError => fallback

/-- `DomainError` from `src/types/state.ts`. -/
structure DomainError where
  code : String
  message : String
  operation : String
  originalError : Option JsErr
deriving DecidableEq, Repr

/-- `DomainStateWrapper<T>` from `src/types/state.ts`:
`{ state, data, error, lastSyncedAt }`. -/
structure DomainStateWrapper (TData : Type) where
  state : DomainState
  data : Option TData
  error : Option DomainError
  lastSyncedAt : Option Nat
deriving DecidableEq, Repr

/-- The events of `src/types/events.ts` that the base manager emits, plus a
generic constructor for the domain-specific events emitted by the cart
success callbacks (their extra payload fields carry no claim-relevant
information and are omitted). -/
inductive ECSuiteEvent where
  | stateChanged (domain : String) (timestamp : Nat)
      (previousState newState : DomainState)
  | synced (domain : String) (timestamp : Nat)
  | domainError (domain : String) (timestamp : Nat) (error : DomainError)
  | domainEvent (type : String) (domain : String) (timestamp : Nat)
deriving DecidableEq, Repr

/-- One observable step: a store write delivered to every subscriber, or a
pubsub event. -/
inductive Obs (TData : Type) where
  | snap (s : DomainStateWrapper TData)
  | evt (e : ECSuiteEvent)
deriving DecidableEq, Repr

/-- The initial snapshot built in the `BaseDomainManager` constructor (and by
`reset()`): `{ state: "initializing", data: null, error: null,
lastSyncedAt: null }`. -/
def initialState (TData : Type) : DomainStateWrapper TData :=
  ⟨DomainState.initializing, none, none, none⟩

/-- `BaseDomainManager._setState`: update `state` and emit
`domain:state:changed` only when the requested state differs from the
current one. -/
def _setState {TData : Type} (domain : String) (now : Nat)
    (state : DomainState) (s : DomainStateWrapper TData) :
    DomainStateWrapper TData × List (Obs TData) :=
  if s.state ≠ state then
    let s' : DomainStateWrapper TData :=
      ⟨state, s.data, s.error, s.lastSyncedAt⟩
    (s', [Obs.snap s',
          Obs.evt (ECSuiteEvent.stateChanged domain now s.state state)])
  else
    (s, [])

/-- `BaseDomainManager._setData`: replace `data`, clear `error`, and set
`state` to `"ready"` when `markReady` (the TS default is `true`). -/
def _setData {TData : Type} (data : TData) (markReady : Bool)
    (s : DomainStateWrapper TData) :
    DomainStateWrapper TData × List (Obs TData) :=
  let s' : DomainStateWrapper TData :=
    ⟨if markReady then DomainState.ready else s.state,
     some data, none, s.lastSyncedAt⟩
  (s', [Obs.snap s'])

/-- `BaseDomainManager._setError`: set `state` to `"error"`, store the error,
then emit `domain:error`. -/
def _setError {TData : Type} (domain : String) (now : Nat)
    (error : DomainError) (s : DomainStateWrapper TData) :
    DomainStateWrapper TData × List (Obs TData) :=
  let s' : DomainStateWrapper TData :=
    ⟨DomainState.error, s.data, some error, s.lastSyncedAt⟩
  (s', [Obs.snap s', Obs.evt (ECSuiteEvent.domainError domain now error)])

/-- `BaseDomainManager._markSynced`: set `state` to `"ready"` and
`lastSyncedAt` to `Date.now()`, then emit `domain:synced`. -/
def _markSynced {TData : Type} (domain : String) (now : Nat)
    (s : DomainStateWrapper TData) :
    DomainStateWrapper TData × List (Obs TData) :=
  let s' : DomainStateWrapper TData :=
    ⟨DomainState.ready, s.data, s.error, some now⟩
  (s', [Obs.snap s', Obs.evt (ECSuiteEvent.synced domain now)])

/-- Result of running a caller-supplied effectful callback: the snapshot
after its store writes, the observations it produced, and the value it
threw, if any (side effects made before the throw persist). -/
structure EffResult (TData : Type) where
  snap : DomainStateWrapper TData
  obs : List (Obs TData)
  thrown : Option JsErr
deriving Repr

/-- A caller-supplied effectful callback. -/
def Eff (TData : Type) : Type :=
  DomainStateWrapper TData → EffResult TData

/-- Result of the caller-supplied `serverSync`: store state and observations
after it settles, plus its settlement (resolved value or rejection). -/
structure SyncResult (TData T : Type) where
  snap : DomainStateWrapper TData
  obs : List (Obs TData)
  result : Except JsErr T

/-- A caller-supplied `serverSync` function. -/
def SyncEff (TData T : Type) : Type :=
  DomainStateWrapper TData → SyncResult TData T

/-- A `serverSync` that reads the store but performs no store write — the
shape of every `serverSync` closure in the repository's domain managers. -/
def pureSync {TData T : Type}
    (f : DomainStateWrapper TData → Except JsErr T) : SyncEff TData T :=
  fun s => ⟨s, [], f s⟩

/-- An optimistic-update callback of the shape used by every cart operation:
read the current `data` and write the mutated value through
`_setData(..., false)`. -/
def setDataMutate {TData : Type} (f : Option TData → TData) : Eff TData :=
  fun s =>
    let r := _setData (f s.data) false s
    ⟨r.1, r.2, none⟩

/-- Result of one `_withOptimisticUpdate` call: the final snapshot, the full
interleaved observation trace, and — since an `async` function surfaces an
uncaught throw as a rejection of the promise it returns — the rejection of
that promise, if any. -/
structure RunResult (TData : Type) where
  final : DomainStateWrapper TData
  trace : List (Obs TData)
  rejected : Option JsErr
deriving Repr

/-- The `catch` block of `_withOptimisticUpdate`: roll back to
`previousData` when it was non-null (via `_setData(previousData, false)`),
build the `SYNC_FAILED` error, call `_setError`, then `onError?.(error)`.
Returns the final snapshot, the observations, and the value `onError`
threw, if any (nothing catches it, so it rejects the promise). -/
def catchBlock {TData : Type} (domain : String) (now : Nat)
    (operation : String) (previousData : Option TData) (e : JsErr)
    (onError : Option (DomainError → Eff TData))
    (s : DomainStateWrapper TData) :
    DomainStateWrapper TData × List (Obs TData) × Option JsErr :=
  let rb := match previousData with
    | some d => _setData d false s
    | none => (s, [])
  let error : DomainError :=
    ⟨"SYNC_FAILED", jsMessageOr "Unknown error" e, operation, some e⟩
  let se := _setError domain now error rb.1
  match onError with
  | none => (se.1, rb.2 ++ se.2, none)
  | some f =>
      let r := f error se.1
      (r.snap, rb.2 ++ se.2 ++ r.obs, r.thrown)

/-- `BaseDomainManager._withOptimisticUpdate`:
capture `previousData`, run the optimistic update, transition to
`"syncing"`, await `serverSync`; on resolve `_markSynced` then
`onSuccess?.(result)` (a throw from `onSuccess` is still inside the `try`
and falls into the `catch`); on reject run the `catch` block.  A throw from
the optimistic update happens before the `try` and rejects the returned
promise with the store left as the partial writes made so far. -/
def _withOptimisticUpdate {TData T : Type} (domain : String) (now : Nat)
    (operation : String) (optimisticUpdate : Eff TData)
    (serverSync : SyncEff TData T)
    (onSuccess : Option (T → Eff TData))
    (onError : Option (DomainError → Eff TData))
    (s0 : DomainStateWrapper TData) : RunResult TData :=
  let previousData := s0.data
  let r1 := optimisticUpdate s0
  match r1.thrown with
  | some e => ⟨r1.snap, r1.obs, some e⟩
  | none =>
      let st := _setState domain now DomainState.syncing r1.snap
      let rs := serverSync st.1
      match rs.result with
      | Except.ok t =>
          let ms := _markSynced domain now rs.snap
          match onSuccess with
          | none => ⟨ms.1, r1.obs ++ st.2 ++ rs.obs ++ ms.2, none⟩
          | some f =>
              let r4 := f t ms.1
              match r4.thrown with
              | none =>
                  ⟨r4.snap, r1.obs ++ st.2 ++ rs.obs ++ ms.2 ++ r4.obs, none⟩
              | some e =>
                  let cb := catchBlock domain now operation previousData e
                    onError r4.snap
                  ⟨cb.1, r1.obs ++ st.2 ++ rs.obs ++ ms.2 ++ r4.obs ++ cb.2.1,
                   cb.2.2⟩
      | Except.error e =>
          let cb := catchBlock domain now operation previousData e onError
            rs.snap
          ⟨cb.1, r1.obs ++ st.2 ++ rs.obs ++ cb.2.1, cb.2.2⟩

/-- `BaseDomainManager.reset`: set the snapshot back to the initial state
(a plain `store.set`, which notifies subscribers). -/
def reset (TData : Type) :
    DomainStateWrapper TData × List (Obs TData) :=
  (initialState TData, [Obs.snap (initialState TData)])

/-- `CartItem` (from `@marianmeres/collection-types`, as used by
`src/domains/cart.ts`): a product reference with a quantity.  JS numbers
are modelled as integers; extra optional fields carry no claim-relevant
information. -/
structure CartItem where
  product_id : String
  quantity : Int
deriving DecidableEq, Repr

/-- `CartData`: `{ items: CartItem[] }`. -/
structure CartData where
  items : List CartItem
deriving DecidableEq, Repr

/-- The item-merge logic of `CartManager.addItem`'s optimistic update:
`findIndex` on `product_id`; when found, the first matching entry's
quantity is incremented, otherwise the item is appended. -/
def addItemItems : List CartItem → CartItem → List CartItem
  | [], item => [item]
  | i :: rest, item =>
      if i.product_id = item.product_id then
        ⟨i.product_id, i.quantity + item.quantity⟩ :: rest
      else
        i :: addItemItems rest item

/-- The success callback shape shared by `addItem`, `updateItemQuantity` and
`removeItem` in `src/domains/cart.ts`: `if (serverData)
this._setData(serverData); this._emit({type, ...})`. -/
def commitThenEmit {TData : Type} (type domain : String) (now : Nat) :
    Option TData → Eff TData :=
  fun serverData s =>
    match serverData with
    | some d =>
        let r := _setData d true s
        ⟨r.1, r.2 ++ [Obs.evt (ECSuiteEvent.domainEvent type domain now)], none⟩
    | none =>
        ⟨s, [Obs.evt (ECSuiteEvent.domainEvent type domain now)], none⟩

/-- `CartManager.addItem`.  `sync` is the settlement of the `serverSync`
closure as a function of the snapshot it reads: with an adapter it is
`fun _ => adapter result`, without one it is `fun s => Except.ok s.data`
(the closure `return this._store.get().data`); no cart `serverSync`
writes the store. -/
def cartAddItem (now : Nat) (item : CartItem)
    (sync : DomainStateWrapper CartData → Except JsErr (Option CartData))
    (s0 : DomainStateWrapper CartData) : RunResult CartData :=
  _withOptimisticUpdate "cart" now "addItem"
    (setDataMutate fun od => ⟨addItemItems (od.getD ⟨[]⟩).items item⟩)
    (pureSync sync)
    (some (commitThenEmit "cart:item:added" "cart" now))
    none s0

/-- `CartManager.removeItem`: optimistic filter of the matching
`product_id`. -/
def cartRemoveItem (now : Nat) (productId : String)
    (sync : DomainStateWrapper CartData → Except JsErr (Option CartData))
    (s0 : DomainStateWrapper CartData) : RunResult CartData :=
  _withOptimisticUpdate "cart" now "removeItem"
    (setDataMutate fun od =>
      ⟨((od.getD ⟨[]⟩).items).filter fun i => ¬ i.product_id = productId⟩)
    (pureSync sync)
    (some (commitThenEmit "cart:item:removed" "cart" now))
    none s0

/-- The run performed by `CartManager.updateItemQuantity` when
`quantity > 0` (for `quantity <= 0` the method delegates to `removeItem`
before any optimistic update).  `current` is the data read before the run
starts; since nothing writes between that read and the optimistic update,
it equals the snapshot's data. -/
def cartUpdateItemQuantity (now : Nat) (productId : String) (quantity : Int)
    (sync : DomainStateWrapper CartData → Except JsErr (Option CartData))
    (s0 : DomainStateWrapper CartData) : RunResult CartData :=
  _withOptimisticUpdate "cart" now "updateItem"
    (setDataMutate fun od =>
      ⟨((od.map CartData.items).getD []).map fun i =>
        if i.product_id = productId then ⟨i.product_id, quantity⟩ else i⟩)
    (pureSync sync)
    (some (commitThenEmit "cart:item:updated" "cart" now))
    none s0

/-- `CartManager.clear`: optimistic `_setData({items: []}, false)`; the
success callback only emits `cart:cleared` (it ignores the server value).
Without an adapter `serverSync` resolves to `{items: []}`. -/
def cartClear (now : Nat)
    (sync : DomainStateWrapper CartData → Except JsErr CartData)
    (s0 : DomainStateWrapper CartData) : RunResult CartData :=
  _withOptimisticUpdate "cart" now "clear"
    (setDataMutate fun _ => (⟨[]⟩ : CartData))
    (pureSync sync)
    (some fun _ s =>
      ⟨s, [Obs.evt (ECSuiteEvent.domainEvent "cart:cleared" "cart" now)], none⟩)
    none s0

/-- Settlement of the adapter's `fetch` during `initialize`. -/
inductive FetchOutcome (TData : Type) where
  | ok (data : TData)
  | fail (e : JsErr)
deriving DecidableEq, Repr

/-- `CartManager.initialize`: if persisted data exists, `_setState("ready")`
immediately; with an adapter, `_setState("syncing")`, await `fetch`, then
`_setData(data)` + `_markSynced()` on resolve or `_setError(FETCH_FAILED)`
on reject; without an adapter, `_setData({items: []})` when no data exists,
then `_setState("ready")`.  `adapter = some outcome` models an adapter
whose `fetch` settles with `outcome`. -/
def cartInitialize (now : Nat) (adapter : Option (FetchOutcome CartData))
    (s0 : DomainStateWrapper CartData) :
    DomainStateWrapper CartData × List (Obs CartData) :=
  let p1 := if s0.data.isSome then _setState "cart" now DomainState.ready s0
            else (s0, [])
  match adapter with
  | some outcome =>
      let p2 := _setState "cart" now DomainState.syncing p1.1
      match outcome with
      | FetchOutcome.ok data =>
          let p3 := _setData data true p2.1
          let p4 := _markSynced "cart" now p3.1
          (p4.1, p1.2 ++ p2.2 ++ p3.2 ++ p4.2)
      | FetchOutcome.fail e =>
          let err : DomainError :=
            ⟨"FETCH_FAILED", jsMessageOr "Failed to fetch cart" e,
             "initialize", some e⟩
          let p3 := _setError "cart" now err p2.1
          (p3.1, p1.2 ++ p2.2 ++ p3.2)
  | none =>
      let p2 := if s0.data.isSome then (p1.1, ([] : List (Obs CartData)))
                else _setData (⟨[]⟩ : CartData) true p1.1
      let p3 := _setState "cart" now DomainState.ready p2.1
      (p3.1, p1.2 ++ p2.2 ++ p3.2)

/-- The phase transitions a subscriber observes: for each notified snapshot
whose `state` differs from the previously observed one, the pair
`(previous, next)`.  `s0` is the snapshot before the first notification. -/
def phaseTransitions {TData : Type} (s0 : DomainStateWrapper TData) :
    List (Obs TData) → List (DomainState × DomainState)
  | [] => []
  | Obs.evt _ :: rest => phaseTransitions s0 rest
  | Obs.snap s :: rest =>
      (if s0.state ≠ s.state then [(s0.state, s.state)] else []) ++
        phaseTransitions s rest

/-- The last snapshot notified in a trace (`s0` when none is). -/
def lastSnap {TData : Type} (s0 : DomainStateWrapper TData) :
    List (Obs TData) → DomainStateWrapper TData
  | [] => s0
  | Obs.evt _ :: rest => lastSnap s0 rest
  | Obs.snap s :: rest => lastSnap s rest

/-- The five edges of the spec's state machine. -/
def specEdge : DomainState → DomainState → Bool
  | DomainState.initializing, DomainState.ready => true
  | DomainState.ready, DomainState.syncing => true
  | DomainState.syncing, DomainState.ready => true
  | DomainState.syncing, DomainState.error => true
  | DomainState.error, DomainState.syncing => true
  | _, _ => false

/-- The spec's five edges plus the further edges the code actually takes:
`initializing → syncing` (initialize with an adapter and no prior data, or
a coordinator run before initialize), `error → ready` (re-initialize from
the error state with data present), and the `reset()` edges into
`initializing` (`reset` puts the snapshot back to the initial state from
any phase). -/
def specEdgeAmended (a b : DomainState) : Bool :=
  specEdge a b ||
    (decide (a = DomainState.initializing) && decide (b = DomainState.syncing)) ||
    (decide (a = DomainState.error) && decide (b = DomainState.ready)) ||
    decide (b = DomainState.initializing)

/-- The spec's snapshot invariant: `state == "error"` iff `error != null`. -/
def stateErrorInv {TData : Type} (s : DomainStateWrapper TData) : Prop :=
  s.state = DomainState.error ↔ s.error ≠ none

/-- Snapshots of a `CartManager` reachable at operation boundaries, starting
from the constructor's initial state (no persisted snapshot).  The `Bool`
index records whether an adapter has been set: without one, every cart
`serverSync` resolves (`addItem`/`updateItemQuantity`/`removeItem` return
`this._store.get().data`, `clear` returns `{items: []}`) and `initialize`
takes its no-adapter branch; with one, the adapter's settlement is
arbitrary.  `setAdapter` may be called at any time. -/
inductive CartReach : Bool → DomainStateWrapper CartData → Prop where
  | start (b : Bool) : CartReach b (initialState CartData)
  | setAdapter {s : DomainStateWrapper CartData} :
      CartReach false s → CartReach true s
  | initAdapter {s : DomainStateWrapper CartData} (now : Nat)
      (outcome : FetchOutcome CartData) :
      CartReach true s → CartReach true (cartInitialize now (some outcome) s).1
  | initNoAdapter {s : DomainStateWrapper CartData} (now : Nat) :
      CartReach false s → CartReach false (cartInitialize now none s).1
  | addItemAdapter {s : DomainStateWrapper CartData} (now : Nat)
      (item : CartItem) (outcome : Except JsErr (Option CartData)) :
      CartReach true s →
      CartReach true (cartAddItem now item (fun _ => outcome) s).final
  | addItemNoAdapter {s : DomainStateWrapper CartData} (now : Nat)
      (item : CartItem) :
      CartReach false s →
      CartReach false (cartAddItem now item (fun st => Except.ok st.data) s).final
  | removeItemAdapter {s : DomainStateWrapper CartData} (now : Nat)
      (productId : String) (outcome : Except JsErr (Option CartData)) :
      CartReach true s →
      CartReach true (cartRemoveItem now productId (fun _ => outcome) s).final
  | removeItemNoAdapter {s : DomainStateWrapper CartData} (now : Nat)
      (productId : String) :
      CartReach false s →
      CartReach false
        (cartRemoveItem now productId (fun st => Except.ok st.data) s).final
  | updateQtyAdapter {s : DomainStateWrapper CartData} (now : Nat)
      (productId : String) (quantity : Int)
      (outcome : Except JsErr (Option CartData)) :
      CartReach true s →
      CartReach true
        (cartUpdateItemQuantity now productId quantity (fun _ => outcome) s).final
  | updateQtyNoAdapter {s : DomainStateWrapper CartData} (now : Nat)
      (productId : String) (quantity : Int) :
      CartReach false s →
      CartReach false
        (cartUpdateItemQuantity now productId quantity
          (fun st => Except.ok st.data) s).final
  | clearAdapter {s : DomainStateWrapper CartData} (now : Nat)
      (outcome : Except JsErr CartData) :
      CartReach true s →
      CartReach true (cartClear now (fun _ => outcome) s).final
  | clearNoAdapter {s : DomainStateWrapper CartData} (now : Nat) :
      CartReach false s →
      CartReach false (cartClear now (fun _ => Except.ok ⟨[]⟩) s).final
  | doReset {b : Bool} {s : DomainStateWrapper CartData} :
      CartReach b s → CartReach b (reset CartData).1

/-- A caller-supplied optimistic update that throws before performing any
store write. -/
def throwingMutate {TData : Type} (e : JsErr) : Eff TData :=
  fun s => ⟨s, [], some e⟩

/-- A caller-supplied success callback that throws before performing any
store write. -/
def throwingOnSuccess {TData T : Type} (e : JsErr) : T → Eff TData :=
  fun _ s => ⟨s, [], some e⟩

/-- The `data` fields of the snapshots notified to subscribers, in
notification order. -/
def snapDatas {TData : Type} (trace : List (Obs TData)) : List (Option TData) :=
  trace.filterMap fun o =>
    match o with
    | Obs.snap s => some s.data
    | Obs.evt _ => none

/-- Modelled from the spec: the reactive store container of
`@marianmeres/store` (an external dependency, not under this repository's
`src/`), per spec §4.1: it holds one current value; `subscribe(fn)`
registers `fn`, immediately invokes `fn(current)` and returns a handle
that removes the registration; every `update` notifies all registered
subscribers with the new value in registration order.  Subscribers are
modelled by fresh numeric ids and the calls made to them by a log of
`(subscriber id, delivered value)` pairs. -/
structure StoreModel (A : Type) where
  value : A
  subs : List Nat
  nextId : Nat
  calls : List (Nat × A)
deriving Repr

/-- Modelled from the spec: construct a store holding `a`, with no
subscribers and no calls made yet (zero writes so far). -/
def StoreModel.create {A : Type} (a : A) : StoreModel A :=
  ⟨a, [], 0, []⟩

/-- Modelled from the spec: `subscribe` registers a fresh subscriber id,
immediately delivers the current value to it, and returns the id (the
handle). -/
def StoreModel.subscribe {A : Type} (st : StoreModel A) : StoreModel A × Nat :=
  (⟨st.value, st.subs ++ [st.nextId], st.nextId + 1,
    st.calls ++ [(st.nextId, st.value)]⟩, st.nextId)

/-- Modelled from the spec: the returned handle removes the registration. -/
def StoreModel.unsubscribe {A : Type} (st : StoreModel A) (id : Nat) :
    StoreModel A :=
  ⟨st.value, st.subs.filter (fun j => ¬ j = id), st.nextId, st.calls⟩

/-- Modelled from the spec: `update` replaces the value and notifies every
registered subscriber with the new value, in registration order. -/
def StoreModel.update {A : Type} (st : StoreModel A) (f : A → A) :
    StoreModel A :=
  ⟨f st.value, st.subs, st.nextId,
   st.calls ++ st.subs.map (fun j => (j, f st.value))⟩

lemma setDataMutate_eq {TData : Type} (f : Option TData → TData)
    (s0 : DomainStateWrapper TData) :
    setDataMutate f s0 =
      ⟨⟨s0.state, some (f s0.data), none, s0.lastSyncedAt⟩,
       [Obs.snap ⟨s0.state, some (f s0.data), none, s0.lastSyncedAt⟩], none⟩ := rfl

lemma run_pure_final_cases {TData T : Type} (domain : String) (now : Nat)
    (op : String) (f : Option TData → TData)
    (sync : DomainStateWrapper TData → Except JsErr T) (g : T → Eff TData)
    (hg0 : ∀ t s, (g t s).thrown = none)
    (hg : ∀ t s, s.state = DomainState.ready → s.error = none →
      (g t s).snap.state = DomainState.ready ∧ (g t s).snap.error = none)
    (s0 : DomainStateWrapper TData) :
    ((_withOptimisticUpdate domain now op (setDataMutate f) (pureSync sync)
        (some g) none s0).final.state = DomainState.ready ∧
      (_withOptimisticUpdate domain now op (setDataMutate f) (pureSync sync)
        (some g) none s0).final.error = none) ∨
    ((_withOptimisticUpdate domain now op (setDataMutate f) (pureSync sync)
        (some g) none s0).final.state = DomainState.error ∧
      (_withOptimisticUpdate domain now op (setDataMutate f) (pureSync sync)
        (some g) none s0).final.error ≠ none) := by
  unfold _withOptimisticUpdate
  rw [setDataMutate_eq]
  by_cases hs : s0.state = DomainState.syncing <;>
    simp only [pureSync, _setState, _markSynced, catchBlock, _setError, _setData,
      hs, ne_eq, not_true_eq_false, not_false_eq_true, if_true, if_false,
      ite_true, ite_false, reduceIte] <;>
    split
  case _ t heq =>
    simp only [hg0]
    left
    exact hg _ _ rfl rfl
  case _ e heq =>
    split <;> · right; simp
  case _ t heq =>
    simp only [hg0]
    left
    exact hg _ _ rfl rfl
  case _ e heq =>
    split <;> · right; simp

lemma phaseTransitions_append {TData : Type} (s0 : DomainStateWrapper TData)
    (a b : List (Obs TData)) :
    phaseTransitions s0 (a ++ b) =
      phaseTransitions s0 a ++ phaseTransitions (lastSnap s0 a) b := by
  induction a generalizing s0 with
  | nil => simp [phaseTransitions, lastSnap]
  | cons o rest ih => cases o <;> simp [phaseTransitions, lastSnap, ih]

lemma run_pure_edges {TData T : Type} (domain : String) (now : Nat)
    (op : String) (f : Option TData → TData)
    (sync : DomainStateWrapper TData → Except JsErr T) (g : T → Eff TData)
    (hg0 : ∀ t s, (g t s).thrown = none)
    (hgT : ∀ t s, s.state = DomainState.ready →
      phaseTransitions s (g t s).obs = [])
    (s0 : DomainStateWrapper TData) (hs0 : s0.state ≠ DomainState.syncing) :
    ((phaseTransitions s0 (_withOptimisticUpdate domain now op (setDataMutate f)
        (pureSync sync) (some g) none s0).trace).all
      fun p => specEdgeAmended p.1 p.2) = true := by
  unfold _withOptimisticUpdate
  rw [setDataMutate_eq]
  simp only [pureSync, _setState, _markSynced, catchBlock, _setError, _setData,
    ne_eq, hs0, not_false_eq_true, if_true, ite_true]
  split
  · -- sync resolves
    simp only [hg0]
    simp only [phaseTransitions_append, phaseTransitions, lastSnap,
      List.append_eq, List.nil_append]
    rw [hgT _ ⟨DomainState.ready, some (f s0.data), none, some now⟩ rfl]
    cases hss : s0.state <;>
      simp [phaseTransitions, specEdgeAmended, specEdge, hss]
  · -- sync rejects
    split <;>
      · simp only [phaseTransitions_append, phaseTransitions, lastSnap]
        cases hss : s0.state <;>
          simp [phaseTransitions, specEdgeAmended, specEdge, hss]

lemma run_pure_final_error_none {TData T : Type} (domain : String) (now : Nat)
    (op : String) (f : Option TData → TData)
    (sync : DomainStateWrapper TData → Except JsErr T) (g : T → Eff TData)
    (hg0 : ∀ t s, (g t s).thrown = none)
    (hg : ∀ t s, s.state = DomainState.ready → s.error = none →
      (g t s).snap.state = DomainState.ready ∧ (g t s).snap.error = none)
    (hsync : ∀ s e, ¬ sync s = Except.error e)
    (s0 : DomainStateWrapper TData) :
    (_withOptimisticUpdate domain now op (setDataMutate f) (pureSync sync)
      (some g) none s0).final.error = none := by
  unfold _withOptimisticUpdate
  rw [setDataMutate_eq]
  by_cases hs : s0.state = DomainState.syncing <;>
    simp only [pureSync, _setState, _markSynced, catchBlock, _setError, _setData,
      hs, ne_eq, not_true_eq_false, not_false_eq_true, if_true, if_false,
      ite_true, ite_false, reduceIte] <;>
    split
  case _ t heq =>
    simp only [hg0]
    exact (hg _ _ rfl rfl).2
  case _ e heq => exact absurd heq (hsync _ e)
  case _ t heq =>
    simp only [hg0]
    exact (hg _ _ rfl rfl).2
  case _ e heq => exact absurd heq (hsync _ e)

lemma cartInitialize_final (now : Nat)
    (adapter : Option (FetchOutcome CartData))
    (s0 : DomainStateWrapper CartData) :
    ((cartInitialize now adapter s0).1.state = DomainState.ready ∧
      (cartInitialize now adapter s0).1.error = s0.error) ∨
    ((cartInitialize now adapter s0).1.state = DomainState.ready ∧
      (cartInitialize now adapter s0).1.error = none) ∨
    ((cartInitialize now adapter s0).1.state = DomainState.error ∧
      (cartInitialize now adapter s0).1.error ≠ none) := by
  unfold cartInitialize
  rcases hd : s0.data with _ | d <;>
    rcases adapter with _ | (data | e) <;>
      by_cases hss : s0.state = DomainState.ready <;>
        simp [hd, hss, _setState, _setData, _setError, _markSynced]

lemma cartInitialize_edges (now : Nat)
    (adapter : Option (FetchOutcome CartData))
    (s0 : DomainStateWrapper CartData)
    (hs0 : s0.state ≠ DomainState.syncing) :
    ((phaseTransitions s0 (cartInitialize now adapter s0).2).all
      fun p => specEdgeAmended p.1 p.2) = true := by
  unfold cartInitialize
  rcases hd : s0.data with _ | d <;>
    rcases adapter with _ | (data | e) <;>
      cases hss : s0.state <;>
        first
          | exact absurd hss hs0
          | simp [hd, hss, _setState, _setData, _setError, _markSynced,
              phaseTransitions, phaseTransitions_append, lastSnap,
              specEdgeAmended, specEdge]

lemma commitThenEmit_thrown {TData : Type} (type domain : String) (now : Nat)
    (t : Option TData) (s : DomainStateWrapper TData) :
    (commitThenEmit type domain now t s).thrown = none := by
  cases t <;> simp [commitThenEmit, _setData]

lemma commitThenEmit_snap {TData : Type} (type domain : String) (now : Nat)
    (t : Option TData) (s : DomainStateWrapper TData)
    (h1 : s.state = DomainState.ready) (h2 : s.error = none) :
    (commitThenEmit type domain now t s).snap.state = DomainState.ready ∧
      (commitThenEmit type domain now t s).snap.error = none := by
  cases t <;> simp [commitThenEmit, _setData, h1, h2]

lemma commitThenEmit_ptrans {TData : Type} (type domain : String) (now : Nat)
    (t : Option TData) (s : DomainStateWrapper TData)
    (h1 : s.state = DomainState.ready) :
    phaseTransitions s (commitThenEmit type domain now t s).obs = [] := by
  cases t <;> simp [commitThenEmit, _setData, phaseTransitions, h1]

lemma cartInitialize_some_final (now : Nat) (outcome : FetchOutcome CartData)
    (s0 : DomainStateWrapper CartData) :
    ((cartInitialize now (some outcome) s0).1.state = DomainState.ready ∧
      (cartInitialize now (some outcome) s0).1.error = none) ∨
    ((cartInitialize now (some outcome) s0).1.state = DomainState.error ∧
      (cartInitialize now (some outcome) s0).1.error ≠ none) := by
  unfold cartInitialize
  rcases hd : s0.data with _ | d <;>
    cases outcome <;>
      by_cases hss : s0.state = DomainState.ready <;>
        simp [hd, hss, _setState, _setData, _setError, _markSynced]

lemma cartInitialize_none_final (now : Nat)
    (s0 : DomainStateWrapper CartData) (h : s0.error = none) :
    (cartInitialize now none s0).1.state = DomainState.ready ∧
      (cartInitialize now none s0).1.error = none := by
  unfold cartInitialize
  rcases hd : s0.data with _ | d <;>
    by_cases hss : s0.state = DomainState.ready <;>
      simp [hd, hss, h, _setState, _setData]

lemma cartAddItem_final_cases (now : Nat) (item : CartItem)
    (sync : DomainStateWrapper CartData → Except JsErr (Option CartData))
    (s0 : DomainStateWrapper CartData) :
    ((cartAddItem now item sync s0).final.state = DomainState.ready ∧
      (cartAddItem now item sync s0).final.error = none) ∨
    ((cartAddItem now item sync s0).final.state = DomainState.error ∧
      (cartAddItem now item sync s0).final.error ≠ none) :=
  run_pure_final_cases "cart" now "addItem" _ sync _
    (commitThenEmit_thrown "cart:item:added" "cart" now)
    (commitThenEmit_snap "cart:item:added" "cart" now) s0

lemma cartRemoveItem_final_cases (now : Nat) (productId : String)
    (sync : DomainStateWrapper CartData → Except JsErr (Option CartData))
    (s0 : DomainStateWrapper CartData) :
    ((cartRemoveItem now productId sync s0).final.state = DomainState.ready ∧
      (cartRemoveItem now productId sync s0).final.error = none) ∨
    ((cartRemoveItem now productId sync s0).final.state = DomainState.error ∧
      (cartRemoveItem now productId sync s0).final.error ≠ none) :=
  run_pure_final_cases "cart" now "removeItem" _ sync _
    (commitThenEmit_thrown "cart:item:removed" "cart" now)
    (commitThenEmit_snap "cart:item:removed" "cart" now) s0

lemma cartUpdateItemQuantity_final_cases (now : Nat) (productId : String)
    (quantity : Int)
    (sync : DomainStateWrapper CartData → Except JsErr (Option CartData))
    (s0 : DomainStateWrapper CartData) :
    ((cartUpdateItemQuantity now productId quantity sync s0).final.state =
        DomainState.ready ∧
      (cartUpdateItemQuantity now productId quantity sync s0).final.error = none) ∨
    ((cartUpdateItemQuantity now productId quantity sync s0).final.state =
        DomainState.error ∧
      (cartUpdateItemQuantity now productId quantity sync s0).final.error ≠ none) :=
  run_pure_final_cases "cart" now "updateItem" _ sync _
    (commitThenEmit_thrown "cart:item:updated" "cart" now)
    (commitThenEmit_snap "cart:item:updated" "cart" now) s0

lemma cartClear_final_cases (now : Nat)
    (sync : DomainStateWrapper CartData → Except JsErr CartData)
    (s0 : DomainStateWrapper CartData) :
    ((cartClear now sync s0).final.state = DomainState.ready ∧
      (cartClear now sync s0).final.error = none) ∨
    ((cartClear now sync s0).final.state = DomainState.error ∧
      (cartClear now sync s0).final.error ≠ none) :=
  run_pure_final_cases "cart" now "clear" _ sync _
    (fun _ _ => rfl) (fun _ _ h1 h2 => ⟨h1, h2⟩) s0

lemma ok_data_not_error (st : DomainStateWrapper CartData) (e : JsErr) :
    ¬ (Except.ok st.data : Except JsErr (Option CartData)) = Except.error e := by
  simp

lemma cartAddItem_noAdapter_error_none (now : Nat) (item : CartItem)
    (s0 : DomainStateWrapper CartData) :
    (cartAddItem now item (fun st => Except.ok st.data) s0).final.error = none :=
  run_pure_final_error_none "cart" now "addItem" _ _ _
    (commitThenEmit_thrown "cart:item:added" "cart" now)
    (commitThenEmit_snap "cart:item:added" "cart" now)
    ok_data_not_error s0

lemma cartRemoveItem_noAdapter_error_none (now : Nat) (productId : String)
    (s0 : DomainStateWrapper CartData) :
    (cartRemoveItem now productId (fun st => Except.ok st.data) s0).final.error =
      none :=
  run_pure_final_error_none "cart" now "removeItem" _ _ _
    (commitThenEmit_thrown "cart:item:removed" "cart" now)
    (commitThenEmit_snap "cart:item:removed" "cart" now)
    ok_data_not_error s0

lemma cartUpdateItemQuantity_noAdapter_error_none (now : Nat)
    (productId : String) (quantity : Int)
    (s0 : DomainStateWrapper CartData) :
    (cartUpdateItemQuantity now productId quantity
      (fun st => Except.ok st.data) s0).final.error = none :=
  run_pure_final_error_none "cart" now "updateItem" _ _ _
    (commitThenEmit_thrown "cart:item:updated" "cart" now)
    (commitThenEmit_snap "cart:item:updated" "cart" now)
    ok_data_not_error s0

lemma cartClear_noAdapter_error_none (now : Nat)
    (s0 : DomainStateWrapper CartData) :
    (cartClear now (fun _ => Except.ok ⟨[]⟩) s0).final.error = none :=
  run_pure_final_error_none "cart" now "clear" _ _ _
    (fun _ _ => rfl) (fun _ _ h1 h2 => ⟨h1, h2⟩)
    (fun _ e => by simp) s0

/-- Induction over `CartReach`: the spec's error invariant holds at every
operation boundary; without an adapter the error field stays `null`; and no
operation leaves the manager in the `"syncing"` state. -/
lemma cartReach_props : ∀ (b : Bool) (s : DomainStateWrapper CartData),
    CartReach b s →
    stateErrorInv s ∧ (b = false → s.error = none) ∧
      s.state ≠ DomainState.syncing := by
  intro b s h
  induction h with
  | start b => simp [initialState, stateErrorInv]
  | setAdapter _ ih => exact ⟨ih.1, by simp, ih.2.2⟩
  | initAdapter now outcome _ _ =>
      rename_i sPrev _ _
      rcases cartInitialize_some_final now outcome sPrev with ⟨h1, h2⟩ | ⟨h1, h2⟩ <;>
        simp [stateErrorInv, h1, h2]
  | initNoAdapter now _ ih =>
      rename_i sPrev _
      obtain ⟨h1, h2⟩ := cartInitialize_none_final now sPrev (ih.2.1 rfl)
      simp [stateErrorInv, h1, h2]
  | addItemAdapter now item outcome _ _ =>
      rename_i sPrev _ _
      rcases cartAddItem_final_cases now item (fun _ => outcome) sPrev with
        ⟨h1, h2⟩ | ⟨h1, h2⟩ <;> simp [stateErrorInv, h1, h2]
  | addItemNoAdapter now item _ _ =>
      rename_i sPrev _ _
      rcases cartAddItem_final_cases now item (fun st => Except.ok st.data) sPrev
          with ⟨h1, h2⟩ | ⟨h1, h2⟩
      · simp [stateErrorInv, h1, h2]
      · exact absurd (cartAddItem_noAdapter_error_none now item sPrev) h2
  | removeItemAdapter now productId outcome _ _ =>
      rename_i sPrev _ _
      rcases cartRemoveItem_final_cases now productId (fun _ => outcome) sPrev
          with ⟨h1, h2⟩ | ⟨h1, h2⟩ <;> simp [stateErrorInv, h1, h2]
  | removeItemNoAdapter now productId _ _ =>
      rename_i sPrev _ _
      rcases cartRemoveItem_final_cases now productId
          (fun st => Except.ok st.data) sPrev with ⟨h1, h2⟩ | ⟨h1, h2⟩
      · simp [stateErrorInv, h1, h2]
      · exact absurd (cartRemoveItem_noAdapter_error_none now productId sPrev) h2
  | updateQtyAdapter now productId quantity outcome _ _ =>
      rename_i sPrev _ _
      rcases cartUpdateItemQuantity_final_cases now productId quantity
          (fun _ => outcome) sPrev with ⟨h1, h2⟩ | ⟨h1, h2⟩ <;>
        simp [stateErrorInv, h1, h2]
  | updateQtyNoAdapter now productId quantity _ _ =>
      rename_i sPrev _ _
      rcases cartUpdateItemQuantity_final_cases now productId quantity
          (fun st => Except.ok st.data) sPrev with ⟨h1, h2⟩ | ⟨h1, h2⟩
      · simp [stateErrorInv, h1, h2]
      · exact absurd
          (cartUpdateItemQuantity_noAdapter_error_none now productId quantity
            sPrev) h2
  | clearAdapter now outcome _ _ =>
      rename_i sPrev _ _
      rcases cartClear_final_cases now (fun _ => outcome) sPrev with
        ⟨h1, h2⟩ | ⟨h1, h2⟩ <;> simp [stateErrorInv, h1, h2]
  | clearNoAdapter now _ _ =>
      rename_i sPrev _ _
      rcases cartClear_final_cases now (fun _ => Except.ok ⟨[]⟩) sPrev with
        ⟨h1, h2⟩ | ⟨h1, h2⟩
      · simp [stateErrorInv, h1, h2]
      · exact absurd (cartClear_noAdapter_error_none now sPrev) h2
  | doReset _ _ => simp [reset, initialState, stateErrorInv]

/-- **C7**: `_setState` emits a `state:changed` event iff the requested
phase differs from the current phase; a no-op transition performs no store
write and emits nothing; when emitted, the event carries the previous and
the new phase. -/
theorem setState_event_iff_changed {TData : Type} (domain : String)
    (now : Nat) (st : DomainState) (s : DomainStateWrapper TData) :
    _setState domain now st s =
      if s.state = st then (s, [])
      else (⟨st, s.data, s.error, s.lastSyncedAt⟩,
            [Obs.snap ⟨st, s.data, s.error, s.lastSyncedAt⟩,
             Obs.evt (ECSuiteEvent.stateChanged domain now s.state st)]) := by
  unfold _setState
  by_cases h : s.state = st <;> simp [h]

/-- **C5**: on a resolving `remoteSync`, the coordinator marks the snapshot
synced (`lastSyncedAt = now`, phase `Ready`), emits `synced`, and only then
runs `onCommit`, which commits the server data and emits the domain event;
the intermediate `Syncing` snapshot carries the optimistic data and the
final snapshot is `Ready` with the committed data and the updated
`lastSyncedAt`. -/
theorem addItem_commit_protocol (now : Nat) (item : CartItem)
    (od : Option CartData) (err0 : Option DomainError) (ls : Option Nat)
    (d : CartData) (st : DomainState) (hst : st ≠ DomainState.syncing) :
    cartAddItem now item (fun _ => Except.ok (some d)) ⟨st, od, err0, ls⟩ =
      ⟨⟨DomainState.ready, some d, none, some now⟩,
       [Obs.snap ⟨st, some ⟨addItemItems (od.getD ⟨[]⟩).items item⟩,
          none, ls⟩,
        Obs.snap ⟨DomainState.syncing,
          some ⟨addItemItems (od.getD ⟨[]⟩).items item⟩, none, ls⟩,
        Obs.evt (ECSuiteEvent.stateChanged "cart" now st
          DomainState.syncing),
        Obs.snap ⟨DomainState.ready,
          some ⟨addItemItems (od.getD ⟨[]⟩).items item⟩, none, some now⟩,
        Obs.evt (ECSuiteEvent.synced "cart" now),
        Obs.snap ⟨DomainState.ready, some d, none, some now⟩,
        Obs.evt (ECSuiteEvent.domainEvent "cart:item:added" "cart" now)],
       none⟩ := by
  cases st <;> first | exact absurd rfl hst | rfl

/-- Witness for `addItem_commit_protocol`: a concrete resolving run from the
`Ready` state. -/
theorem addItem_commit_protocol_w :
    cartAddItem 3 ⟨"p", 2⟩ (fun _ => Except.ok (some ⟨[⟨"p", 2⟩]⟩))
        ⟨DomainState.ready, some ⟨[]⟩, none, none⟩ =
      ⟨⟨DomainState.ready, some ⟨[⟨"p", 2⟩]⟩, none, some 3⟩,
       [Obs.snap ⟨DomainState.ready, some ⟨[⟨"p", 2⟩]⟩, none, none⟩,
        Obs.snap ⟨DomainState.syncing, some ⟨[⟨"p", 2⟩]⟩, none, none⟩,
        Obs.evt (ECSuiteEvent.stateChanged "cart" 3 DomainState.ready
          DomainState.syncing),
        Obs.snap ⟨DomainState.ready, some ⟨[⟨"p", 2⟩]⟩, none, some 3⟩,
        Obs.evt (ECSuiteEvent.synced "cart" 3),
        Obs.snap ⟨DomainState.ready, some ⟨[⟨"p", 2⟩]⟩, none, some 3⟩,
        Obs.evt (ECSuiteEvent.domainEvent "cart:item:added" "cart" 3)],
       none⟩ :=
  addItem_commit_protocol 3 ⟨"p", 2⟩ (some ⟨[]⟩) none none ⟨[⟨"p", 2⟩]⟩
    DomainState.ready (by decide)

/-- **C9**: when `remoteSync` resolves but the caller's `onSuccess` throws,
the throw is caught by the coordinator's `catch`: data is rolled back to the
pre-operation value, the state becomes `"error"` with code `SYNC_FAILED`,
and the `error` event is emitted — even though `synced` was already emitted
and `lastSyncedAt` was already advanced (it remains `some now`). -/
theorem onCommit_throw_fails_operation {TData T : Type} (domain : String)
    (now : Nat) (op : String) (f : Option TData → TData) (t : T) (e : JsErr)
    (c : TData) (ls : Option Nat) :
    _withOptimisticUpdate domain now op (setDataMutate f)
        (pureSync fun _ => Except.ok t) (some (throwingOnSuccess e)) none
        ⟨DomainState.ready, some c, none, ls⟩ =
      ⟨⟨DomainState.error, some c,
        some ⟨"SYNC_FAILED", jsMessageOr "Unknown error" e, op, some e⟩,
        some now⟩,
       [Obs.snap ⟨DomainState.ready, some (f (some c)), none, ls⟩,
        Obs.snap ⟨DomainState.syncing, some (f (some c)), none, ls⟩,
        Obs.evt (ECSuiteEvent.stateChanged domain now
          DomainState.ready DomainState.syncing),
        Obs.snap ⟨DomainState.ready, some (f (some c)), none, some now⟩,
        Obs.evt (ECSuiteEvent.synced domain now),
        Obs.snap ⟨DomainState.ready, some c, none, some now⟩,
        Obs.snap ⟨DomainState.error, some c,
          some ⟨"SYNC_FAILED", jsMessageOr "Unknown error" e, op, some e⟩,
          some now⟩,
        Obs.evt (ECSuiteEvent.domainError domain now
          ⟨"SYNC_FAILED", jsMessageOr "Unknown error" e, op, some e⟩)],
       none⟩ := by
  rfl

lemma cartAddItem_edges (now : Nat) (item : CartItem)
    (sync : DomainStateWrapper CartData → Except JsErr (Option CartData))
    (s0 : DomainStateWrapper CartData)
    (hs0 : s0.state ≠ DomainState.syncing) :
    ((phaseTransitions s0 (cartAddItem now item sync s0).trace).all
      fun p => specEdgeAmended p.1 p.2) = true :=
  run_pure_edges "cart" now "addItem" _ sync _
    (commitThenEmit_thrown "cart:item:added" "cart" now)
    (commitThenEmit_ptrans "cart:item:added" "cart" now) s0 hs0

lemma cartRemoveItem_edges (now : Nat) (productId : String)
    (sync : DomainStateWrapper CartData → Except JsErr (Option CartData))
    (s0 : DomainStateWrapper CartData)
    (hs0 : s0.state ≠ DomainState.syncing) :
    ((phaseTransitions s0 (cartRemoveItem now productId sync s0).trace).all
      fun p => specEdgeAmended p.1 p.2) = true :=
  run_pure_edges "cart" now "removeItem" _ sync _
    (commitThenEmit_thrown "cart:item:removed" "cart" now)
    (commitThenEmit_ptrans "cart:item:removed" "cart" now) s0 hs0

lemma cartUpdateItemQuantity_edges (now : Nat) (productId : String)
    (quantity : Int)
    (sync : DomainStateWrapper CartData → Except JsErr (Option CartData))
    (s0 : DomainStateWrapper CartData)
    (hs0 : s0.state ≠ DomainState.syncing) :
    ((phaseTransitions s0
        (cartUpdateItemQuantity now productId quantity sync s0).trace).all
      fun p => specEdgeAmended p.1 p.2) = true :=
  run_pure_edges "cart" now "updateItem" _ sync _
    (commitThenEmit_thrown "cart:item:updated" "cart" now)
    (commitThenEmit_ptrans "cart:item:updated" "cart" now) s0 hs0

lemma cartClear_edges (now : Nat)
    (sync : DomainStateWrapper CartData → Except JsErr CartData)
    (s0 : DomainStateWrapper CartData)
    (hs0 : s0.state ≠ DomainState.syncing) :
    ((phaseTransitions s0 (cartClear now sync s0).trace).all
      fun p => specEdgeAmended p.1 p.2) = true :=
  run_pure_edges "cart" now "clear" _ sync _ (fun _ _ => rfl)
    (fun _ _ _ => by simp [phaseTransitions]) s0 hs0

/-- **C2** (counterexample): during a retry run started from a reachable
error-state snapshot, the optimistic `_setData(..., false)` clears `error`
while `state` is still `"error"`; the notified intermediate snapshot has
`state == "error"` and `error == null`, violating the invariant between
subscriber notifications. -/
theorem error_invariant_violated_between_notifications :
    CartReach true
      (cartAddItem 0 ⟨"p", 1⟩ (fun _ => Except.error (JsErr.err "down"))
        (cartInitialize 0 (some (FetchOutcome.ok ⟨[]⟩))
          (initialState CartData)).1).final ∧
    Obs.snap ⟨DomainState.error, some ⟨[⟨"p", 1⟩]⟩, none, some 0⟩ ∈
      (cartAddItem 1 ⟨"p", 1⟩ (fun _ => Except.ok none)
        (cartAddItem 0 ⟨"p", 1⟩ (fun _ => Except.error (JsErr.err "down"))
          (cartInitialize 0 (some (FetchOutcome.ok ⟨[]⟩))
            (initialState CartData)).1).final).trace ∧
    (⟨DomainState.error, some ⟨[⟨"p", 1⟩]⟩, none, some 0⟩ :
      DomainStateWrapper CartData).state = DomainState.error ∧
    (⟨DomainState.error, some ⟨[⟨"p", 1⟩]⟩, none, some 0⟩ :
      DomainStateWrapper CartData).error = none :=
  ⟨CartReach.addItemAdapter 0 ⟨"p", 1⟩ (Except.error (JsErr.err "down"))
      (CartReach.initAdapter 0 (FetchOutcome.ok ⟨[]⟩) (CartReach.start true)),
   by decide, rfl, rfl⟩

/-- **C2** (amended): the invariant `state == "error"` iff `error != null`
holds at every operation boundary (for every snapshot reachable through
completed operations), though not between every pair of subscriber
notifications inside a run. -/
theorem error_invariant_at_boundaries (b : Bool)
    (s : DomainStateWrapper CartData) (h : CartReach b s) :
    stateErrorInv s :=
  (cartReach_props b s h).1

/-- Witness for `error_invariant_at_boundaries` at a concrete reachable
snapshot. -/
theorem error_invariant_at_boundaries_w :
    stateErrorInv
      (cartInitialize 0 (some (FetchOutcome.ok ⟨[]⟩))
        (initialState CartData)).1 :=
  error_invariant_at_boundaries true _
    (CartReach.initAdapter 0 (FetchOutcome.ok ⟨[]⟩) (CartReach.start true))

lemma reset_edges (s : DomainStateWrapper CartData) :
    ((phaseTransitions s (reset CartData).2).all
      fun p => specEdgeAmended p.1 p.2) = true := by
  cases hss : s.state <;>
    simp [reset, initialState, phaseTransitions, specEdgeAmended, specEdge,
      hss]

/-- **C4** (counterexample): two reachable phase transitions fall outside
the spec's five-edge machine: the very first `initialize` with an adapter
and no persisted data transitions `initializing → syncing`, and `reset()`
called from a reachable `ready` snapshot transitions
`ready → initializing`. -/
theorem phase_edges_outside_spec :
    (CartReach true (initialState CartData) ∧
      (DomainState.initializing, DomainState.syncing) ∈
        phaseTransitions (initialState CartData)
          (cartInitialize 0 (some (FetchOutcome.ok ⟨[]⟩))
            (initialState CartData)).2 ∧
      specEdge DomainState.initializing DomainState.syncing = false) ∧
    (CartReach true
        (cartInitialize 0 (some (FetchOutcome.ok ⟨[]⟩))
          (initialState CartData)).1 ∧
      phaseTransitions
          (cartInitialize 0 (some (FetchOutcome.ok ⟨[]⟩))
            (initialState CartData)).1 (reset CartData).2 =
        [(DomainState.ready, DomainState.initializing)] ∧
      specEdge DomainState.ready DomainState.initializing = false) :=
  ⟨⟨CartReach.start true, by decide, rfl⟩,
   ⟨CartReach.initAdapter 0 (FetchOutcome.ok ⟨[]⟩) (CartReach.start true),
    by decide, rfl⟩⟩

/-- **C4** (amended): every phase transition of a domain instance — during
`initialize`, during every coordinator run, and during `reset` — lies
within the spec's five edges extended by `initializing → syncing`,
`error → ready`, and the `reset` edges into `initializing`, from every
reachable snapshot. -/
theorem transitions_follow_amended_edges (b : Bool)
    (s : DomainStateWrapper CartData) (h : CartReach b s) (now : Nat)
    (adapter : Option (FetchOutcome CartData)) (item : CartItem)
    (productId : String) (quantity : Int)
    (sync : DomainStateWrapper CartData → Except JsErr (Option CartData))
    (syncC : DomainStateWrapper CartData → Except JsErr CartData) :
    ((phaseTransitions s (cartInitialize now adapter s).2).all
      fun p => specEdgeAmended p.1 p.2) = true ∧
    ((phaseTransitions s (cartAddItem now item sync s).trace).all
      fun p => specEdgeAmended p.1 p.2) = true ∧
    ((phaseTransitions s (cartRemoveItem now productId sync s).trace).all
      fun p => specEdgeAmended p.1 p.2) = true ∧
    ((phaseTransitions s
        (cartUpdateItemQuantity now productId quantity sync s).trace).all
      fun p => specEdgeAmended p.1 p.2) = true ∧
    ((phaseTransitions s (cartClear now syncC s).trace).all
      fun p => specEdgeAmended p.1 p.2) = true ∧
    ((phaseTransitions s (reset CartData).2).all
      fun p => specEdgeAmended p.1 p.2) = true := by
  have hs0 : s.state ≠ DomainState.syncing := (cartReach_props b s h).2.2
  exact ⟨cartInitialize_edges now adapter s hs0,
    cartAddItem_edges now item sync s hs0,
    cartRemoveItem_edges now productId sync s hs0,
    cartUpdateItemQuantity_edges now productId quantity sync s hs0,
    cartClear_edges now syncC s hs0,
    reset_edges s⟩

/-- Witness for `transitions_follow_amended_edges` at the initial snapshot
with concrete operations. -/
theorem transitions_follow_amended_edges_w :
    ((phaseTransitions (initialState CartData)
        (cartInitialize 0 (some (FetchOutcome.ok ⟨[]⟩))
          (initialState CartData)).2).all
      fun p => specEdgeAmended p.1 p.2) = true ∧
    ((phaseTransitions (initialState CartData)
        (cartAddItem 0 ⟨"p", 1⟩ (fun _ => Except.ok none)
          (initialState CartData)).trace).all
      fun p => specEdgeAmended p.1 p.2) = true ∧
    ((phaseTransitions (initialState CartData)
        (cartRemoveItem 0 "p" (fun _ => Except.ok none)
          (initialState CartData)).trace).all
      fun p => specEdgeAmended p.1 p.2) = true ∧
    ((phaseTransitions (initialState CartData)
        (cartUpdateItemQuantity 0 "p" 1 (fun _ => Except.ok none)
          (initialState CartData)).trace).all
      fun p => specEdgeAmended p.1 p.2) = true ∧
    ((phaseTransitions (initialState CartData)
        (cartClear 0 (fun _ => Except.ok ⟨[]⟩)
          (initialState CartData)).trace).all
      fun p => specEdgeAmended p.1 p.2) = true ∧
    ((phaseTransitions (initialState CartData) (reset CartData).2).all
      fun p => specEdgeAmended p.1 p.2) = true :=
  transitions_follow_amended_edges true (initialState CartData)
    (CartReach.start true) 0 (some (FetchOutcome.ok ⟨[]⟩)) ⟨"p", 1⟩ "p" 1
    (fun _ => Except.ok none) (fun _ => Except.ok ⟨[]⟩)

lemma catchBlock_none_rejected {TData : Type} (domain : String) (now : Nat)
    (op : String) (pd : Option TData) (e : JsErr)
    (s : DomainStateWrapper TData) :
    (catchBlock domain now op pd e none s).2.2 = none := by
  cases pd <;> simp [catchBlock, _setData, _setError]

lemma catchBlock_none_error {TData : Type} (domain : String) (now : Nat)
    (op : String) (pd : Option TData) (e : JsErr)
    (s : DomainStateWrapper TData) :
    (catchBlock domain now op pd e none s).1.error =
      some ⟨"SYNC_FAILED", jsMessageOr "Unknown error" e, op, some e⟩ := by
  cases pd <;> simp [catchBlock, _setData, _setError]

lemma catchBlock_none_event_mem {TData : Type} (domain : String) (now : Nat)
    (op : String) (pd : Option TData) (e : JsErr)
    (s : DomainStateWrapper TData) :
    Obs.evt (ECSuiteEvent.domainError domain now
        ⟨"SYNC_FAILED", jsMessageOr "Unknown error" e, op, some e⟩) ∈
      (catchBlock domain now op pd e none s).2.1 := by
  cases pd <;> simp [catchBlock, _setData, _setError]

/-- **C3** (counterexample): a throwing `localMutate` makes the promise
returned by the coordinator reject; that failure is expressed neither
through the snapshot's `error` field (still null) nor through an `error`
event (the trace is empty), contradicting "every failure is expressed only
through the snapshot's `error` field and the emitted `error` event". -/
theorem throwing_mutate_escapes :
    ((_withOptimisticUpdate "cart" 0 "addItem"
        (throwingMutate (JsErr.err "boom"))
        (pureSync fun _ => Except.ok (none : Option CartData)) none none
        (initialState CartData)).rejected = some (JsErr.err "boom")) ∧
    ((_withOptimisticUpdate "cart" 0 "addItem"
        (throwingMutate (JsErr.err "boom"))
        (pureSync fun _ => Except.ok (none : Option CartData)) none none
        (initialState CartData)).final.error = none) ∧
    ((_withOptimisticUpdate "cart" 0 "addItem"
        (throwingMutate (JsErr.err "boom"))
        (pureSync fun _ => Except.ok (none : Option CartData)) none none
        (initialState CartData)).trace = []) :=
  ⟨rfl, rfl, rfl⟩

lemma catchBlock_rejected_of_tame {TData : Type} (domain : String)
    (now : Nat) (op : String) (pd : Option TData) (e : JsErr)
    (onE : Option (DomainError → Eff TData)) (s : DomainStateWrapper TData)
    (h : ∀ g err s', onE = some g → (g err s').thrown = none) :
    (catchBlock domain now op pd e onE s).2.2 = none := by
  cases onE with
  | none => cases pd <;> simp [catchBlock, _setData, _setError]
  | some g =>
      have h' : ∀ err s', (g err s').thrown = none :=
        fun err s' => h g err s' rfl
      cases pd <;> simp [catchBlock, _setData, _setError, h']

lemma catchBlock_event_mem {TData : Type} (domain : String) (now : Nat)
    (op : String) (pd : Option TData) (e : JsErr)
    (onE : Option (DomainError → Eff TData)) (s : DomainStateWrapper TData) :
    Obs.evt (ECSuiteEvent.domainError domain now
        ⟨"SYNC_FAILED", jsMessageOr "Unknown error" e, op, some e⟩) ∈
      (catchBlock domain now op pd e onE s).2.1 := by
  cases onE <;> cases pd <;> simp [catchBlock, _setData, _setError]

lemma catchBlock_snap_err_mem {TData : Type} (domain : String) (now : Nat)
    (op : String) (pd : Option TData) (e : JsErr)
    (onE : Option (DomainError → Eff TData)) (s : DomainStateWrapper TData) :
    ∃ s', Obs.snap s' ∈ (catchBlock domain now op pd e onE s).2.1 ∧
      s'.state = DomainState.error ∧
      s'.error = some ⟨"SYNC_FAILED", jsMessageOr "Unknown error" e, op,
        some e⟩ := by
  rcases pd with _ | d
  · rcases onE with _ | g <;>
      exact ⟨⟨DomainState.error, s.data,
        some ⟨"SYNC_FAILED", jsMessageOr "Unknown error" e, op, some e⟩,
        s.lastSyncedAt⟩, by simp [catchBlock, _setError], rfl, rfl⟩
  · rcases onE with _ | g <;>
      exact ⟨⟨DomainState.error, some d,
        some ⟨"SYNC_FAILED", jsMessageOr "Unknown error" e, op, some e⟩,
        s.lastSyncedAt⟩, by simp [catchBlock, _setData, _setError],
        rfl, rfl⟩

/-- **C3** (amended): the coordinator never throws synchronously (it is
`async`).  A rejecting `remoteSync` (or a throwing `onCommit`) is always
expressed through the snapshot's `error` field and the emitted `error`
event: `_setError` writes the `SYNC_FAILED` error, notifies subscribers and
emits `domain:error` before `onError?.()` runs, so this holds even when a
supplied `onError` then throws — in which case the returned promise
additionally rejects.  When `localMutate` does not throw and `onError` (if
supplied) does not throw, the promise never rejects.  Only a throwing
`localMutate` escapes as a promise rejection with no error recorded, as the
counterexample shows. -/
theorem coordinator_rejection_accounting {TData T : Type} (domain : String)
    (now : Nat) (op : String) (m : Eff TData)
    (sync : DomainStateWrapper TData → Except JsErr T)
    (onS : Option (T → Eff TData))
    (onE : Option (DomainError → Eff TData))
    (s0 : DomainStateWrapper TData)
    (hm : (m s0).thrown = none) :
    ((∀ g err s', onE = some g → (g err s').thrown = none) →
      (_withOptimisticUpdate domain now op m (pureSync sync) onS onE
        s0).rejected = none) ∧
    ∀ e, sync (_setState domain now DomainState.syncing (m s0).snap).1 =
        Except.error e →
      (∃ s', Obs.snap s' ∈ (_withOptimisticUpdate domain now op m
            (pureSync sync) onS onE s0).trace ∧
          s'.state = DomainState.error ∧
          s'.error = some ⟨"SYNC_FAILED", jsMessageOr "Unknown error" e, op,
            some e⟩) ∧
      Obs.evt (ECSuiteEvent.domainError domain now
          ⟨"SYNC_FAILED", jsMessageOr "Unknown error" e, op, some e⟩) ∈
        (_withOptimisticUpdate domain now op m (pureSync sync) onS onE
          s0).trace ∧
      (onE = none →
        (_withOptimisticUpdate domain now op m (pureSync sync) onS onE
          s0).final.error =
          some ⟨"SYNC_FAILED", jsMessageOr "Unknown error" e, op, some e⟩) := by
  constructor
  · intro hOnE
    have hcb : ∀ (pd : Option TData) (e' : JsErr)
        (s' : DomainStateWrapper TData),
        (catchBlock domain now op pd e' onE s').2.2 = none :=
      fun pd e' s' =>
        catchBlock_rejected_of_tame domain now op pd e' onE s' hOnE
    unfold _withOptimisticUpdate
    simp only [hm, pureSync]
    repeat' split
    all_goals simp_all [hcb]
  · intro e he
    unfold _withOptimisticUpdate
    simp only [hm, pureSync, he]
    refine ⟨?_, ?_, ?_⟩
    · obtain ⟨s', h1, h2, h3⟩ := catchBlock_snap_err_mem domain now op s0.data
        e onE (_setState domain now DomainState.syncing (m s0).snap).1
      exact ⟨s', by simp [h1], h2, h3⟩
    · simp [catchBlock_event_mem]
    · intro honE
      subst honE
      simp [catchBlock_none_error]

/-- Witness for `coordinator_rejection_accounting`: a concrete run whose
`remoteSync` rejects; the promise does not reject, the error is recorded,
and the error event is emitted. -/
theorem coordinator_rejection_accounting_w :
    ((_withOptimisticUpdate "cart" 0 "addItem"
        (setDataMutate fun _ => (⟨[]⟩ : CartData))
        (pureSync fun _ => Except.error (JsErr.err "down"))
        (none : Option ((Option CartData) → Eff CartData)) none
        (initialState CartData)).rejected = none) ∧
    ((_withOptimisticUpdate "cart" 0 "addItem"
        (setDataMutate fun _ => (⟨[]⟩ : CartData))
        (pureSync fun _ => Except.error (JsErr.err "down"))
        (none : Option ((Option CartData) → Eff CartData)) none
        (initialState CartData)).final.error =
      some ⟨"SYNC_FAILED", "down", "addItem", some (JsErr.err "down")⟩) ∧
    (Obs.evt (ECSuiteEvent.domainError "cart" 0
        ⟨"SYNC_FAILED", "down", "addItem", some (JsErr.err "down")⟩) ∈
      (_withOptimisticUpdate "cart" 0 "addItem"
        (setDataMutate fun _ => (⟨[]⟩ : CartData))
        (pureSync fun _ => Except.error (JsErr.err "down"))
        (none : Option ((Option CartData) → Eff CartData)) none
        (initialState CartData)).trace) :=
  ⟨(coordinator_rejection_accounting "cart" 0 "addItem"
      (setDataMutate fun _ => (⟨[]⟩ : CartData))
      (fun _ => Except.error (JsErr.err "down")) none none
      (initialState CartData) rfl).1 (fun _ _ _ h => nomatch h),
   ((coordinator_rejection_accounting "cart" 0 "addItem"
      (setDataMutate fun _ => (⟨[]⟩ : CartData))
      (fun _ => Except.error (JsErr.err "down")) none none
      (initialState CartData) rfl).2 (JsErr.err "down") rfl).2.2 rfl,
   ((coordinator_rejection_accounting "cart" 0 "addItem"
      (setDataMutate fun _ => (⟨[]⟩ : CartData))
      (fun _ => Except.error (JsErr.err "down")) none none
      (initialState CartData) rfl).2 (JsErr.err "down") rfl).2.1⟩

/-- **C1**: when `remoteSync` rejects: with a non-null captured
pre-operation `data`, the post-rollback `data` strictly equals the captured
value; with a null captured `data`, no rollback occurs and `data` is left
as the value the optimistic update wrote; in both cases the `SYNC_FAILED`
error is recorded. -/
theorem rollback_exact {TData T : Type} (domain : String) (now : Nat)
    (op : String) (m : Eff TData)
    (sync : DomainStateWrapper TData → Except JsErr T)
    (onS : Option (T → Eff TData)) (s0 : DomainStateWrapper TData)
    (e : JsErr) (hm : (m s0).thrown = none)
    (he : sync (_setState domain now DomainState.syncing (m s0).snap).1 =
      Except.error e) :
    ((∀ d, s0.data = some d →
        (_withOptimisticUpdate domain now op m (pureSync sync) onS none
          s0).final.data = some d) ∧
     (s0.data = none →
        (_withOptimisticUpdate domain now op m (pureSync sync) onS none
          s0).final.data = (m s0).snap.data)) ∧
    (_withOptimisticUpdate domain now op m (pureSync sync) onS none
        s0).final.error =
      some ⟨"SYNC_FAILED", jsMessageOr "Unknown error" e, op, some e⟩ := by
  unfold _withOptimisticUpdate
  simp only [hm, pureSync, he]
  refine ⟨⟨fun d hd => ?_, fun hd => ?_⟩, ?_⟩
  · simp [catchBlock, hd, _setData, _setError]
  · simp only [catchBlock, hd, _setError]
    simp only [_setState]
    split <;> rfl
  · simp [catchBlock_none_error]

/-- Witness for `rollback_exact`: a concrete rejecting run from a non-null
data state rolls back exactly; one from a null data state keeps the
optimistic value. -/
theorem rollback_exact_w :
    ((_withOptimisticUpdate "cart" 0 "addItem"
        (setDataMutate fun _ => (⟨[⟨"p", 1⟩]⟩ : CartData))
        (pureSync fun _ => Except.error (JsErr.err "down"))
        (none : Option ((Option CartData) → Eff CartData)) none
        ⟨DomainState.ready, some ⟨[]⟩, none, none⟩).final.data =
      some (⟨[]⟩ : CartData)) ∧
    ((_withOptimisticUpdate "cart" 0 "addItem"
        (setDataMutate fun _ => (⟨[⟨"p", 1⟩]⟩ : CartData))
        (pureSync fun _ => Except.error (JsErr.err "down"))
        (none : Option ((Option CartData) → Eff CartData)) none
        (initialState CartData)).final.data =
      some (⟨[⟨"p", 1⟩]⟩ : CartData)) :=
  ⟨(rollback_exact "cart" 0 "addItem"
      (setDataMutate fun _ => (⟨[⟨"p", 1⟩]⟩ : CartData))
      (fun _ => Except.error (JsErr.err "down")) none
      ⟨DomainState.ready, some ⟨[]⟩, none, none⟩ (JsErr.err "down")
      rfl rfl).1.1 ⟨[]⟩ rfl,
   ((rollback_exact "cart" 0 "addItem"
      (setDataMutate fun _ => (⟨[⟨"p", 1⟩]⟩ : CartData))
      (fun _ => Except.error (JsErr.err "down")) none
      (initialState CartData) (JsErr.err "down")
      rfl rfl).1.2 rfl).trans rfl⟩

/-- **C6**: in every run the optimistic mutation is notified to subscribers
strictly before `remoteSync` is invoked — the trace starts with the
optimistic snapshot and the syncing transition, then whatever `remoteSync`
observes, and `remoteSync` itself is applied to the post-optimistic
snapshot; when `remoteSync` rejects, the rollback write is notified
strictly after it settles and strictly before the `error` event; and every
notified snapshot carries either the optimistic or the rolled-back data,
never a mixture. -/
theorem optimistic_before_remote_rollback_before_error (now : Nat)
    (item : CartItem) (c : CartData) (ls : Option Nat) (e : JsErr) :
    (∀ sync : SyncEff CartData (Option CartData), ∃ post,
      (_withOptimisticUpdate "cart" now "addItem"
          (setDataMutate fun od => ⟨addItemItems (od.getD ⟨[]⟩).items item⟩)
          sync (some (commitThenEmit "cart:item:added" "cart" now)) none
          ⟨DomainState.ready, some c, none, ls⟩).trace =
        [Obs.snap ⟨DomainState.ready, some ⟨addItemItems c.items item⟩,
           none, ls⟩,
         Obs.snap ⟨DomainState.syncing, some ⟨addItemItems c.items item⟩,
           none, ls⟩,
         Obs.evt (ECSuiteEvent.stateChanged "cart" now
           DomainState.ready DomainState.syncing)] ++
        (sync ⟨DomainState.syncing, some ⟨addItemItems c.items item⟩,
          none, ls⟩).obs ++ post) ∧
    (cartAddItem now item (fun _ => Except.error e)
        ⟨DomainState.ready, some c, none, ls⟩).trace =
      [Obs.snap ⟨DomainState.ready, some ⟨addItemItems c.items item⟩,
         none, ls⟩,
       Obs.snap ⟨DomainState.syncing, some ⟨addItemItems c.items item⟩,
         none, ls⟩,
       Obs.evt (ECSuiteEvent.stateChanged "cart" now
         DomainState.ready DomainState.syncing),
       Obs.snap ⟨DomainState.syncing, some c, none, ls⟩,
       Obs.snap ⟨DomainState.error, some c,
         some ⟨"SYNC_FAILED", jsMessageOr "Unknown error" e, "addItem",
           some e⟩, ls⟩,
       Obs.evt (ECSuiteEvent.domainError "cart" now
         ⟨"SYNC_FAILED", jsMessageOr "Unknown error" e, "addItem",
           some e⟩)] ∧
    snapDatas (cartAddItem now item (fun _ => Except.error e)
        ⟨DomainState.ready, some c, none, ls⟩).trace =
      [some ⟨addItemItems c.items item⟩, some ⟨addItemItems c.items item⟩,
       some c, some c] := by
  refine ⟨fun sync => ?_, rfl, rfl⟩
  unfold _withOptimisticUpdate
  rw [setDataMutate_eq]
  simp only [_setState, ne_eq, reduceCtorEq, not_false_eq_true, if_true,
    ite_true, Option.getD_some]
  rcases hres : (sync ⟨DomainState.syncing, some ⟨addItemItems c.items item⟩,
      none, ls⟩).result with e' | t'
  · exact ⟨(catchBlock "cart" now "addItem" (some c) e' none
        (sync ⟨DomainState.syncing, some ⟨addItemItems c.items item⟩,
          none, ls⟩).snap).2.1,
      by simp [List.append_assoc]⟩
  · simp only [commitThenEmit_thrown]
    exact ⟨(_markSynced "cart" now (sync ⟨DomainState.syncing,
          some ⟨addItemItems c.items item⟩, none, ls⟩).snap).2 ++
        (commitThenEmit "cart:item:added" "cart" now t'
          (_markSynced "cart" now (sync ⟨DomainState.syncing,
            some ⟨addItemItems c.items item⟩, none, ls⟩).snap).1).obs,
      by simp [List.append_assoc]⟩

/-- **C10**: on a run whose `localMutate` writes only via
`_setData(..., false)` and whose `remoteSync` rejects, `lastSyncedAt` is
never written: the final snapshot and every snapshot notified during the
run carry the pre-operation `lastSyncedAt` (only `_markSynced`, on the
success path, writes that field). -/
theorem failure_path_preserves_lastSyncedAt {TData T : Type}
    (domain : String) (now : Nat) (op : String) (f : Option TData → TData)
    (sync : DomainStateWrapper TData → Except JsErr T)
    (onS : Option (T → Eff TData)) (s0 : DomainStateWrapper TData)
    (e : JsErr)
    (he : sync (_setState domain now DomainState.syncing
        (setDataMutate f s0).snap).1 = Except.error e) :
    (_withOptimisticUpdate domain now op (setDataMutate f) (pureSync sync)
        onS none s0).final.lastSyncedAt = s0.lastSyncedAt ∧
    ∀ s', Obs.snap s' ∈ (_withOptimisticUpdate domain now op
        (setDataMutate f) (pureSync sync) onS none s0).trace →
      s'.lastSyncedAt = s0.lastSyncedAt := by
  simp only [setDataMutate_eq] at he
  unfold _withOptimisticUpdate
  rw [setDataMutate_eq]
  by_cases hs : s0.state = DomainState.syncing <;>
    simp only [pureSync, _setState, ne_eq, hs, not_true_eq_false,
      not_false_eq_true, if_true, if_false, ite_true, ite_false] at he ⊢ <;>
    rw [he] <;>
    cases hd : s0.data <;>
    simp only [catchBlock, _setData, _setError, hd] <;>
    refine ⟨by trivial, ?_⟩ <;>
    intro s' hmem <;>
    simp only [List.mem_append, List.mem_cons, List.not_mem_nil, or_false,
      false_or, reduceCtorEq, Obs.snap.injEq, or_assoc] at hmem <;>
    rcases hmem with rfl | rfl | rfl | rfl <;> rfl

/-- Witness for `failure_path_preserves_lastSyncedAt` at a concrete
rejecting run. -/
theorem failure_path_preserves_lastSyncedAt_w :
    ((_withOptimisticUpdate "cart" 0 "addItem"
        (setDataMutate fun _ => (⟨[]⟩ : CartData))
        (pureSync fun _ => Except.error (JsErr.err "x"))
        (none : Option ((Option CartData) → Eff CartData)) none
        ⟨DomainState.ready, some ⟨[⟨"p", 1⟩]⟩, none, some 5⟩).final.lastSyncedAt
      = some 5) ∧
    (⟨DomainState.syncing, some ⟨[]⟩, none, some 5⟩ :
      DomainStateWrapper CartData).lastSyncedAt = some 5 :=
  ⟨(failure_path_preserves_lastSyncedAt "cart" 0 "addItem"
      (fun _ => (⟨[]⟩ : CartData))
      (fun _ => (Except.error (JsErr.err "x") :
        Except JsErr (Option CartData)))
      none ⟨DomainState.ready, some ⟨[⟨"p", 1⟩]⟩, none, some 5⟩
      (JsErr.err "x") rfl).1,
   (failure_path_preserves_lastSyncedAt "cart" 0 "addItem"
      (fun _ => (⟨[]⟩ : CartData))
      (fun _ => (Except.error (JsErr.err "x") :
        Except JsErr (Option CartData)))
      none ⟨DomainState.ready, some ⟨[⟨"p", 1⟩]⟩, none, some 5⟩
      (JsErr.err "x") rfl).2
      ⟨DomainState.syncing, some ⟨[]⟩, none, some 5⟩ (by decide)⟩

/-- **C8** (spec-modelled, the store is the external `@marianmeres/store`
package): `subscribe(fn)` immediately and synchronously invokes `fn` with
the current snapshot — the call log is extended by exactly that one
delivery — registers the subscriber, and the returned handle removes the
registration. -/
theorem subscribe_immediate_and_removable {A : Type} (st : StoreModel A)
    (hwf : ∀ j ∈ st.subs, j < st.nextId) :
    st.subscribe.1.calls = st.calls ++ [(st.subscribe.2, st.value)] ∧
    st.subscribe.2 ∈ st.subscribe.1.subs ∧
    (st.subscribe.1.unsubscribe st.subscribe.2).subs = st.subs := by
  refine ⟨rfl, by simp [StoreModel.subscribe], ?_⟩
  simp only [StoreModel.subscribe, StoreModel.unsubscribe, List.filter_append]
  have h1 : List.filter (fun j => decide ¬ j = st.nextId) [st.nextId] = [] := by
    simp
  have h2 : List.filter (fun j => decide ¬ j = st.nextId) st.subs = st.subs := by
    apply List.filter_eq_self.mpr
    intro j hj
    simpa using Nat.ne_of_lt (hwf j hj)
  rw [h1, h2, List.append_nil]

/-- Witness for `subscribe_immediate_and_removable` on a freshly created
store with zero writes. -/
theorem subscribe_immediate_and_removable_w :
    (StoreModel.create (7 : Nat)).subscribe.1.calls =
      (StoreModel.create (7 : Nat)).calls ++
        [((StoreModel.create (7 : Nat)).subscribe.2,
          (StoreModel.create (7 : Nat)).value)] ∧
    (StoreModel.create (7 : Nat)).subscribe.2 ∈
      (StoreModel.create (7 : Nat)).subscribe.1.subs ∧
    ((StoreModel.create (7 : Nat)).subscribe.1.unsubscribe
        (StoreModel.create (7 : Nat)).subscribe.2).subs =
      (StoreModel.create (7 : Nat)).subs :=
  subscribe_immediate_and_removable (StoreModel.create (7 : Nat))
    (by intro j hj; cases hj)
